import Mathlib

/-!
Shallow embedding of the `ratatecs` crate (`src/lib.rs`): a bevy plugin that
drives a ratatui terminal once per scheduler tick.  The embedding models the
crate's own code directly; external collaborators (crossterm input, the
ratatui terminal backend, the bevy schedule runner) are modelled at the
boundary the crate uses them through, as described in the specification's
external-interface section.
-/

namespace RatatEcs

/-- Key codes of `crossterm::event::KeyCode`, restricted to the variants the
repository's examples exercise plus a catch-all. -/
inductive KeyCode where
  | esc
  | left
  | right
  | enter
  | char (c : Char)
  | other
deriving DecidableEq

/-- `crossterm::event::KeyEvent`: a key code plus a modifier bitset. -/
structure KeyEvent where
  code : KeyCode
  modifiers : Nat
deriving DecidableEq

/-- `crossterm::event::Event`, the raw input event type polled each tick. -/
inductive Event where
  | key (k : KeyEvent)
  | resize (w h : Nat)
  | focusGained
  | focusLost
  | other
deriving DecidableEq

/-- The `BackendEvent` resource: the per-tick latched input event
(`pub struct BackendEvent(pub Option<crossterm::event::Event>)`). -/
def BackendEvent := Option Event

/-- Boundary model of the crossterm input poll performed by
`get_backend_events`:
`crossterm::event::poll(10ms).ok().and_then(|has| if has { read().ok() } else { None })`.
`pollRes` is the outcome of `poll` with `Err` mapped to `none` by `.ok()`, and
`readRes` is the outcome of `read` with `Err` likewise mapped to `none`. -/
def pollInput (pollRes : Option Bool) (readRes : Option Event) : Option Event :=
  match pollRes with
  | none => none
  | some has => if has then readRes else none

/-- `get_backend_events` (src/lib.rs): refresh of the event latch.  The match
on `(event.0.is_some(), new_event.is_some())` is transcribed arm for arm:
a new event unconditionally replaces the latch; no new event clears a held
latch; otherwise the latch (already empty) is left alone. -/
def get_backend_events (cur : Option Event) (pollRes : Option Bool)
    (readRes : Option Event) : Option Event :=
  match cur.isSome, (pollInput pollRes readRes).isSome with
  | _, true => pollInput pollRes readRes
  | true, false => none
  | _, _ => cur

/-- A character cell of the terminal buffer. -/
def Cell := Nat
deriving DecidableEq

/-- The blank cell every fresh buffer is filled with. -/
def blankCell : Cell := (0 : Nat)

/-- `ratatui::prelude::Rect`: a target region in character cells. -/
structure Rect where
  x : Nat
  y : Nat
  width : Nat
  height : Nat
deriving DecidableEq

/-- Whether the cell `(cx, cy)` lies inside the rectangle. -/
def Rect.contains (r : Rect) (cx cy : Nat) : Bool :=
  decide (r.x ≤ cx ∧ cx < r.x + r.width ∧ r.y ≤ cy ∧ cy < r.y + r.height)

/-- The character-cell frame buffer of the terminal, at the boundary the
crate uses it through: dimensions plus a cell-valued grid. -/
structure Buffer where
  width : Nat
  height : Nat
  cell : Nat → Nat → Cell

/-- `ScopedWidget` (src/lib.rs): one queued drawable unit.  The opaque
`Box<dyn WidgetRef>` is modelled at the boundary as a uniform fill value it
paints over its target area; the area and the `u32` stacking key are carried
as in the source. -/
structure ScopedWidget where
  fill : Cell
  area : Rect
  z_order : Nat
deriving DecidableEq

/-- Whether a widget's paint touches the in-bounds cell `(x, y)` of a
`W × H` buffer: the cell is inside the buffer and inside the widget's area
(painting clips to the visible intersection). -/
def hitCell (W H x y : Nat) (u : ScopedWidget) : Bool :=
  decide (x < W) && decide (y < H) && u.area.contains x y

/-- `widget.render_ref(area, buf)` at the widget boundary: the unit paints
its fill value over every cell of its area that lies inside the buffer,
leaving all other cells untouched. -/
def renderRef (u : ScopedWidget) (b : Buffer) : Buffer :=
  { b with cell := fun x y =>
      if hitCell b.width b.height x y u then u.fill else b.cell x y }

/-- Painting a list of units left to right (the drain loop inside `render`). -/
def paintAll (us : List ScopedWidget) (b : Buffer) : Buffer :=
  us.foldl (fun acc u => renderRef u acc) b

/-- Stable insertion by ascending `z_order`: a unit is placed before the
first strictly-greater-or-equal key, keeping earlier-queued units of equal
key in front. -/
def insertZ (u : ScopedWidget) : List ScopedWidget → List ScopedWidget
  | [] => [u]
  | v :: vs => if u.z_order ≤ v.z_order then u :: v :: vs else v :: insertZ u vs

/-- `widgets.sort_by_key(|sw| sw.z_order)` — Rust's stable sort by key,
modelled as stable insertion sort (any stable sort by the same key computes
the same list). -/
def sortByZ : List ScopedWidget → List ScopedWidget
  | [] => []
  | u :: us => insertZ u (sortByZ us)

/-- The last unit of a list whose paint touches a given cell, if any:
painting the list left to right leaves that unit's value in the cell. -/
def lastHit (p : ScopedWidget → Bool) : List ScopedWidget → Option ScopedWidget
  | [] => none
  | u :: us =>
      match lastHit p us with
      | some v => some v
      | none => if p u then some u else none

/-- Sortedness by ascending stacking key. -/
def SortedZ (l : List ScopedWidget) : Prop :=
  l.Pairwise (fun a b => a.z_order ≤ b.z_order)

/-- `WidgetsToDraw` (src/lib.rs): the drawable queue. -/
structure WidgetsToDraw where
  widgets : List ScopedWidget

/-- `TerminalWrapper`'s terminal, at the backend boundary of the spec:
it owns the current frame buffer. -/
structure Terminal where
  buffer : Buffer

/-- `Terminal::draw` at the ratatui boundary: runs the frame callback on the
current buffer, then presents; presenting yields `Ok` or an I/O error
(`presentOk` selects which).  The caller receives the updated terminal and
the `io::Result`. -/
def Terminal.draw (t : Terminal) (presentOk : Bool) (f : Buffer → Buffer) :
    Terminal × Except String Unit :=
  ({ buffer := f t.buffer }, if presentOk then Except.ok () else Except.error "io error")

/-- `WidgetDrawer` (src/lib.rs): the system parameter bundling the drawable
queue and the terminal. -/
structure WidgetDrawer where
  widgets : WidgetsToDraw
  terminal : Terminal

/-- `WidgetDrawer::push_widget`. -/
def WidgetDrawer.push_widget (wd : WidgetDrawer) (u : ScopedWidget) : WidgetDrawer :=
  { wd with widgets := ⟨wd.widgets.widgets ++ [u]⟩ }

/-- `render` (src/lib.rs): inside `terminal.draw`, sort the queue by
`z_order` (stable), drain it, and paint each unit in order into the frame
buffer; the `io::Result` of `draw` is discarded (`let _ = ...`). -/
def render (wd : WidgetDrawer) (presentOk : Bool) : WidgetDrawer :=
  { widgets := ⟨[]⟩
    terminal := (wd.terminal.draw presentOk (fun buf => paintAll (sortByZ wd.widgets.widgets) buf)).1 }

/-- `BackendKind` (src/lib.rs). -/
inductive BackendKind where
  | crossterm
  | test
deriving DecidableEq

/-- The two concrete backend type instantiations appearing in
`TuiPlugin::build`: `CrosstermBackend<Stdout>` and `TestBackend`. -/
inductive BackendTy where
  | crosstermStdout
  | testBackend
deriving DecidableEq

/-- `TuiPlugin` (src/lib.rs): backend selection plus the optional test
dimensions; `Default` is `Crossterm` with no size. -/
structure TuiPlugin where
  backend : BackendKind
  size : Option (Nat × Nat)

/-- `TuiPlugin::new()` = `Self::default()`. -/
def TuiPlugin.new : TuiPlugin :=
  { backend := BackendKind.crossterm, size := none }

/-- `TuiPlugin::test_backend(width, height)`. -/
def TuiPlugin.test_backend (width height : Nat) : TuiPlugin :=
  { backend := BackendKind.test, size := some (width, height) }

/-- `ratatui::backend::TestBackend::new(width, height)` at the ratatui
boundary: a buffer of exactly those dimensions with every cell blank. -/
def TestBackend.new (width height : Nat) : Buffer :=
  { width := width, height := height, cell := fun _ _ => blankCell }

/-- `Terminal::new(backend)` at the ratatui boundary: wraps the backend's
buffer (this never fails for a test backend). -/
def Terminal.new (b : Buffer) : Terminal :=
  { buffer := b }

/-- The relevant labels of bevy's `Main` schedule, which runs its member
schedules in a fixed order each tick. -/
inductive ScheduleLabel where
  | update
  | postUpdate
  | last
deriving DecidableEq

/-- Position of each schedule label in bevy's fixed `Main` schedule order
(`Update` before `PostUpdate` before `Last`), at the scheduler boundary. -/
def phaseIndex : ScheduleLabel → Nat
  | ScheduleLabel.update => 0
  | ScheduleLabel.postUpdate => 1
  | ScheduleLabel.last => 2

/-- The systems `TuiPlugin::build` registers, identified with the backend
type each generic system is instantiated at. -/
inductive SystemId where
  | getBackendEvents
  | cleanupOnExit (b : BackendTy)
  | renderSystem (b : BackendTy)
deriving DecidableEq

/-- Kinds of non-send resources (`insert_non_send_resource`). -/
inductive NonSendKind where
  | terminalWrapperK (b : BackendTy)
  | widgetsToDrawK
deriving DecidableEq

/-- A non-send resource value inserted into the app. -/
inductive NonSendRes where
  | terminalWrapper (b : BackendTy) (t : Terminal)
  | widgetsToDraw (ws : List ScopedWidget)

/-- The kind of an inserted non-send resource. -/
def NonSendRes.kind : NonSendRes → NonSendKind
  | NonSendRes.terminalWrapper b _ => NonSendKind.terminalWrapperK b
  | NonSendRes.widgetsToDraw _ => NonSendKind.widgetsToDrawK

/-- The non-send resources each registered system's parameters name, read
off the source signatures: `cleanup_on_exit::<B>` takes
`NonSend<TerminalWrapper<B>>`; `render::<B>`'s `WidgetDrawer<B>` takes
`NonSendMut<WidgetsToDraw>` and `NonSendMut<TerminalWrapper<B>>`;
`get_backend_events` takes only the send resource `ResMut<BackendEvent>`. -/
def SystemId.requiredNonSend : SystemId → List NonSendKind
  | SystemId.getBackendEvents => []
  | SystemId.cleanupOnExit b => [NonSendKind.terminalWrapperK b]
  | SystemId.renderSystem b => [NonSendKind.widgetsToDrawK, NonSendKind.terminalWrapperK b]

/-- Send resources inserted with `insert_resource`. -/
inductive ResId where
  | backendEvent (v : Option Event)

/-- The bevy `App` at the boundary `TuiPlugin::build` mutates it through:
inserted resources, inserted non-send resources, and the systems added to
each schedule. -/
structure AppModel where
  resources : List ResId
  nonSendResources : List NonSendRes
  systems : List (ScheduleLabel × SystemId)

/-- `App::new()`: no resources, no systems. -/
def emptyApp : AppModel :=
  { resources := [], nonSendResources := [], systems := [] }

/-- `ratatui::init()` at the ratatui boundary: acquires the interactive
device (raw/alternate mode) and returns a terminal sized to the device,
whose dimensions `dev` supplies. -/
def ratatui_init (dev : Nat × Nat) : Terminal :=
  { buffer := { width := dev.1, height := dev.2, cell := fun _ _ => blankCell } }

/-- `TuiPlugin::build` (src/lib.rs), step for step: insert
`BackendEvent(None)`; add `(get_backend_events, cleanup_on_exit::<CrosstermBackend<Stdout>>)`
to `Last`; then per backend add `render::<B>` to `PostUpdate` and insert the
`TerminalWrapper` — where `Test` without a size hits
`self.size.expect("test backend requires size")`, a fatal startup panic
modelled as `Except.error`; finally insert the empty `WidgetsToDraw`.
`dev` supplies the interactive device dimensions `ratatui::init` would see. -/
def TuiPlugin.build (p : TuiPlugin) (dev : Nat × Nat) (app : AppModel) :
    Except String AppModel :=
  let app1 := { app with resources := app.resources ++ [ResId.backendEvent none] }
  let app2 := { app1 with systems := app1.systems ++
      [(ScheduleLabel.last, SystemId.getBackendEvents),
       (ScheduleLabel.last, SystemId.cleanupOnExit BackendTy.crosstermStdout)] }
  match p.backend with
  | BackendKind.crossterm =>
      let app3 := { app2 with systems := app2.systems ++
          [(ScheduleLabel.postUpdate, SystemId.renderSystem BackendTy.crosstermStdout)] }
      let app4 := { app3 with nonSendResources := app3.nonSendResources ++
          [NonSendRes.terminalWrapper BackendTy.crosstermStdout (ratatui_init dev)] }
      Except.ok { app4 with nonSendResources := app4.nonSendResources ++
          [NonSendRes.widgetsToDraw []] }
  | BackendKind.test =>
      match p.size with
      | none => Except.error "test backend requires size"
      | some (w, h) =>
          let app3 := { app2 with systems := app2.systems ++
              [(ScheduleLabel.postUpdate, SystemId.renderSystem BackendTy.testBackend)] }
          let app4 := { app3 with nonSendResources := app3.nonSendResources ++
              [NonSendRes.terminalWrapper BackendTy.testBackend
                (Terminal.new (TestBackend.new w h))] }
          Except.ok { app4 with nonSendResources := app4.nonSendResources ++
              [NonSendRes.widgetsToDraw []] }

/-- Look up the inserted `TerminalWrapper` of a given backend type. -/
def AppModel.terminalOf (app : AppModel) (b : BackendTy) : Option Terminal :=
  app.nonSendResources.findSome? fun r =>
    match r with
    | NonSendRes.terminalWrapper b' t => if b' = b then some t else none
    | NonSendRes.widgetsToDraw _ => none

/-- The process-level terminal device state at the ratatui boundary:
whether the device is in raw/alternate mode, and whether the restoring
panic hook `ratatui::init` installs is in place. -/
structure Session where
  raw : Bool
  panicHook : Bool

/-- Device state `ratatui::init()` leaves behind: raw mode entered and the
restore-on-panic hook installed (ratatui's documented `init` behaviour). -/
def ratatui_init_session : Session :=
  { raw := true, panicHook := true }

/-- `ratatui::restore()`: the device leaves raw/alternate mode.  Idempotent. -/
def ratatui_restore (s : Session) : Session :=
  { s with raw := false }

/-- `cleanup_on_exit` (src/lib.rs): if the `AppExit` event queue read by the
system is non-empty, `ratatui::restore()` runs; otherwise nothing happens. -/
def cleanup_on_exit (exitsNonEmpty : Bool) (s : Session) : Session :=
  if exitsNonEmpty then ratatui_restore s else s

/-- Unwinding through the scheduler: the panic hook installed by
`ratatui::init` restores the device before the process image ends. -/
def panic_unwind (s : Session) : Session :=
  if s.panicHook then ratatui_restore s else s

/-- Everything one tick of the app depends on from the outside: widgets the
consumer systems push, whether a consumer system wrote `AppExit` during the
tick, the crossterm poll/read outcomes, and whether presenting succeeds. -/
structure TickInput where
  pushed : List ScopedWidget
  exitSent : Bool
  pollRes : Option Bool
  readRes : Option Event
  presentOk : Bool

/-- Observable state threaded through the tick loop: the latch resource,
a log of the latch value each tick's update systems read, the drawable
queue and terminal, paint counters, and the device session. -/
structure WorldState where
  latch : Option Event
  updateReads : List (Option Event)
  drawer : WidgetDrawer
  paints : Nat
  paintsAfterRestore : Nat
  session : Session
  ticksRun : Nat

/-- World at startup: `BackendEvent(None)` inserted, empty drawable queue,
device acquired by `ratatui::init`. -/
def initialWorld (t : Terminal) : WorldState :=
  { latch := none
    updateReads := []
    drawer := { widgets := ⟨[]⟩, terminal := t }
    paints := 0
    paintsAfterRestore := 0
    session := ratatui_init_session
    ticksRun := 0 }

/-- One bevy tick of the app built by `TuiPlugin::build`, phases in bevy's
`Main` order: `Update` (consumer systems read the latch — logged — and may
push widgets or send `AppExit`), `PostUpdate` (`render`), `Last`
(`get_backend_events` and `cleanup_on_exit`; the two share no state, so
their unspecified relative order inside the tuple is immaterial). -/
def runTick (inp : TickInput) (w : WorldState) : WorldState :=
  let wu := { w with
    updateReads := w.updateReads ++ [w.latch]
    drawer := { w.drawer with widgets := ⟨w.drawer.widgets.widgets ++ inp.pushed⟩ } }
  let wp := { wu with
    drawer := render wu.drawer inp.presentOk
    paints := wu.paints + 1
    paintsAfterRestore :=
      if wu.session.raw then wu.paintsAfterRestore else wu.paintsAfterRestore + 1 }
  let wl := { wp with
    latch := get_backend_events wp.latch inp.pollRes inp.readRes
    session := cleanup_on_exit inp.exitSent wp.session }
  { wl with ticksRun := wl.ticksRun + 1 }

/-- The `ScheduleRunnerPlugin` loop at the bevy boundary
(`RunMode::Loop`): run a tick, then stop if the app observed `AppExit`
during it; `fuel` bounds the number of ticks considered. -/
def runLoop (inp : Nat → TickInput) : Nat → Nat → WorldState → WorldState
  | 0, _, w => w
  | fuel + 1, t, w =>
      let w' := runTick (inp t) w
      if (inp t).exitSent then w' else runLoop inp fuel (t + 1) w'

/-- The world after the first `n` ticks (no exit observed among them). -/
def worldAfter (inp : Nat → TickInput) (w0 : WorldState) : Nat → WorldState
  | 0 => w0
  | n + 1 => runTick (inp n) (worldAfter inp w0 n)

/-- The latch value after `n` refreshes, computed directly from the
`get_backend_events` recurrence starting at the initial empty latch. -/
def latchChain (inp : Nat → TickInput) : Nat → Option Event
  | 0 => none
  | n + 1 => get_backend_events (latchChain inp n) (inp n).pollRes (inp n).readRes

/-! ### Lemmas about the stable sort and the paint fold -/

theorem mem_insertZ {w u : ScopedWidget} :
    ∀ {l : List ScopedWidget}, w ∈ insertZ u l ↔ w = u ∨ w ∈ l := by
  intro l
  induction l with
  | nil => simp [insertZ]
  | cons v vs ih =>
    by_cases hz : u.z_order ≤ v.z_order
    · simp [insertZ, hz]
    · simp [insertZ, hz, ih, List.mem_cons, or_left_comm]

theorem insertZ_of_le {u : ScopedWidget} :
    ∀ {l : List ScopedWidget}, (∀ v ∈ l, u.z_order ≤ v.z_order) →
      insertZ u l = u :: l := by
  intro l h
  cases l with
  | nil => rfl
  | cons v vs =>
    have : u.z_order ≤ v.z_order := h v (List.mem_cons_self v vs)
    simp [insertZ, this]

theorem sortedZ_insertZ {u : ScopedWidget} :
    ∀ {l : List ScopedWidget}, SortedZ l → SortedZ (insertZ u l) := by
  intro l h
  induction l with
  | nil => simp [insertZ, SortedZ]
  | cons v vs ih =>
    rw [SortedZ, List.pairwise_cons] at h
    by_cases hz : u.z_order ≤ v.z_order
    · rw [insertZ, if_pos hz, SortedZ, List.pairwise_cons]
      refine ⟨?_, ?_⟩
      · intro w hw
        rcases List.mem_cons.mp hw with h1 | h1
        · exact h1 ▸ hz
        · exact le_trans hz (h.1 w h1)
      · rw [List.pairwise_cons]
        exact h
    · rw [insertZ, if_neg hz, SortedZ, List.pairwise_cons]
      refine ⟨?_, ih h.2⟩
      intro w hw
      rcases mem_insertZ.mp hw with h1 | h1
      · subst h1
        omega
      · exact h.1 w h1

theorem sortedZ_sortByZ : ∀ (l : List ScopedWidget), SortedZ (sortByZ l) := by
  intro l
  induction l with
  | nil => simp [sortByZ, SortedZ]
  | cons u us ih => exact sortedZ_insertZ ih

theorem filter_insertZ (p : ScopedWidget → Bool) (u : ScopedWidget) :
    ∀ (l : List ScopedWidget), SortedZ l →
      (insertZ u l).filter p =
        if p u then insertZ u (l.filter p) else l.filter p := by
  intro l
  induction l with
  | nil =>
    intro _
    by_cases hu : p u <;> simp [insertZ, hu]
  | cons v vs ih =>
    intro h
    rw [SortedZ, List.pairwise_cons] at h
    by_cases hz : u.z_order ≤ v.z_order
    · rw [insertZ, if_pos hz]
      by_cases hu : p u
      · rw [List.filter_cons_of_pos hu, if_pos hu]
        have hle : ∀ w ∈ (v :: vs).filter p, u.z_order ≤ w.z_order := by
          intro w hw
          rcases List.mem_cons.mp (List.mem_of_mem_filter hw) with h1 | h1
          · exact h1 ▸ hz
          · exact le_trans hz (h.1 w h1)
        rw [insertZ_of_le hle]
      · rw [List.filter_cons_of_neg hu, if_neg hu]
    · rw [insertZ, if_neg hz]
      by_cases hv : p v
      · rw [List.filter_cons_of_pos hv, List.filter_cons_of_pos hv,
          ih h.2]
        by_cases hu : p u
        · rw [if_pos hu, if_pos hu, insertZ, if_neg hz]
        · rw [if_neg hu, if_neg hu]
      · rw [List.filter_cons_of_neg hv, List.filter_cons_of_neg hv,
          ih h.2]

theorem filter_sortByZ (p : ScopedWidget → Bool) :
    ∀ (l : List ScopedWidget), (sortByZ l).filter p = sortByZ (l.filter p) := by
  intro l
  induction l with
  | nil => rfl
  | cons a l ih =>
    rw [sortByZ, filter_insertZ p a (sortByZ l) (sortedZ_sortByZ l), ih]
    by_cases ha : p a
    · rw [if_pos ha, List.filter_cons_of_pos ha, sortByZ]
    · rw [if_neg ha, List.filter_cons_of_neg ha]

theorem lastHit_filter_self (p : ScopedWidget → Bool) :
    ∀ (l : List ScopedWidget), lastHit p (l.filter p) = lastHit p l := by
  intro l
  induction l with
  | nil => rfl
  | cons u l ih =>
    by_cases hu : p u
    · rw [List.filter_cons_of_pos hu, lastHit, ih, lastHit]
    · rw [List.filter_cons_of_neg hu, ih, lastHit]
      cases lastHit p l with
      | some v => rfl
      | none => simp [hu]

theorem paintAll_cons (u : ScopedWidget) (l : List ScopedWidget) (b : Buffer) :
    paintAll (u :: l) b = paintAll l (renderRef u b) :=
  rfl

theorem paintAll_cell (l : List ScopedWidget) (x y : Nat) :
    ∀ (b : Buffer),
      (paintAll l b).cell x y =
        match lastHit (hitCell b.width b.height x y) l with
        | some u => u.fill
        | none => b.cell x y := by
  induction l with
  | nil => intro b; rfl
  | cons u l ih =>
    intro b
    rw [paintAll_cons, ih (renderRef u b)]
    have hw : (renderRef u b).width = b.width := rfl
    have hh : (renderRef u b).height = b.height := rfl
    rw [hw, hh, lastHit]
    cases hcase : lastHit (hitCell b.width b.height x y) l with
    | some v => rfl
    | none =>
      show (renderRef u b).cell x y = _
      by_cases hu : hitCell b.width b.height x y u
      · simp [renderRef, hu]
      · simp [renderRef, hu]

theorem render_queue_empty (wd : WidgetDrawer) (ok : Bool) :
    (render wd ok).widgets.widgets = [] :=
  rfl

theorem render_cell (ws : List ScopedWidget) (b : Buffer) (ok : Bool) (x y : Nat) :
    (render ⟨⟨ws⟩, ⟨b⟩⟩ ok).terminal.buffer.cell x y =
      match lastHit (hitCell b.width b.height x y) (sortByZ ws) with
      | some u => u.fill
      | none => b.cell x y :=
  paintAll_cell (sortByZ ws) x y b

/-! ### Claim theorems -/

/-- C1: `render` stably sorts the queue by stacking key ascending and paints
in that order, so at any in-bounds cell reached by exactly two queued units
`u` (queued first) and `v` (queued second), the unit with the strictly
higher key wins the overlap, and on equal keys the later-queued `v` wins;
the queue is left empty. -/
theorem c1_stable_zorder_paint (ws : List ScopedWidget) (b : Buffer) (ok : Bool)
    (u v : ScopedWidget) (x y : Nat)
    (hf : ws.filter (hitCell b.width b.height x y) = [u, v]) :
    (render ⟨⟨ws⟩, ⟨b⟩⟩ ok).widgets.widgets = [] ∧
    (render ⟨⟨ws⟩, ⟨b⟩⟩ ok).terminal.buffer.cell x y =
      (if v.z_order < u.z_order then u.fill else v.fill) := by
  refine ⟨rfl, ?_⟩
  rw [render_cell]
  have hu : hitCell b.width b.height x y u = true :=
    List.of_mem_filter (l := ws) (by rw [hf]; exact List.mem_cons_self u [v])
  have hv : hitCell b.width b.height x y v = true :=
    List.of_mem_filter (l := ws)
      (by rw [hf]; exact List.mem_cons_of_mem u (List.mem_cons_self v []))
  have hlast : lastHit (hitCell b.width b.height x y) (sortByZ ws) =
      lastHit (hitCell b.width b.height x y) (sortByZ [u, v]) := by
    rw [← lastHit_filter_self (hitCell b.width b.height x y) (sortByZ ws),
      filter_sortByZ, hf]
  rw [hlast]
  by_cases hz : u.z_order ≤ v.z_order
  · have hsort : sortByZ [u, v] = [u, v] := by
      simp [sortByZ, insertZ, hz]
    rw [hsort]
    have : lastHit (hitCell b.width b.height x y) [u, v] = some v := by
      simp [lastHit, hu, hv]
    rw [this, if_neg (by omega)]
  · have hsort : sortByZ [u, v] = [v, u] := by
      simp [sortByZ, insertZ, hz]
    rw [hsort]
    have : lastHit (hitCell b.width b.height x y) [v, u] = some u := by
      simp [lastHit, hu, hv]
    rw [this, if_pos (by omega)]

/-- The spec's overlap scenario, unit A: fills value 5 over row 0 columns
0–9 at stacking key 0, queued first. -/
def unitA : ScopedWidget :=
  { fill := (5 : Nat), area := { x := 0, y := 0, width := 10, height := 1 }, z_order := 0 }

/-- The spec's overlap scenario, unit B: fills value 7 over row 0 columns
0–4 at stacking key 1, queued second. -/
def unitB : ScopedWidget :=
  { fill := (7 : Nat), area := { x := 0, y := 0, width := 5, height := 1 }, z_order := 1 }

/-- Witness for C1 at the spec's scenario: on a 10×1 buffer, cell (2,0) is
covered by both units and the higher-keyed, later-queued B wins. -/
theorem c1_stable_zorder_paint_witness :
    ([unitA, unitB].filter
        (hitCell (TestBackend.new 10 1).width (TestBackend.new 10 1).height 2 0)
      = [unitA, unitB]) ∧
    ((render ⟨⟨[unitA, unitB]⟩, ⟨TestBackend.new 10 1⟩⟩ true).widgets.widgets = [] ∧
     (render ⟨⟨[unitA, unitB]⟩, ⟨TestBackend.new 10 1⟩⟩ true).terminal.buffer.cell 2 0 =
       (if unitB.z_order < unitA.z_order then unitA.fill else unitB.fill)) :=
  ⟨by decide,
   c1_stable_zorder_paint [unitA, unitB] (TestBackend.new 10 1) true unitA unitB 2 0
     (by decide)⟩

/-- C2: the latch refresh of `get_backend_events`: a freshly polled event
unconditionally replaces the latch; with no new event a held latch is
cleared and an empty latch stays empty; hence after any refresh, one
further refresh without a new event leaves the latch empty — an event is
visible for exactly the tick it arrives on. -/
theorem c2_event_latch_refresh (cur : Option Event) (p : Option Bool) (r : Option Event) :
    (∀ e : Event, pollInput p r = some e → get_backend_events cur p r = some e) ∧
    (pollInput p r = none → cur.isSome = true → get_backend_events cur p r = none) ∧
    (pollInput p r = none → cur = none → get_backend_events cur p r = none) ∧
    (∀ (p2 : Option Bool) (r2 : Option Event), pollInput p2 r2 = none →
      get_backend_events (get_backend_events cur p r) p2 r2 = none) := by
  refine ⟨?_, ?_, ?_, ?_⟩
  · intro e he
    cases cur <;> simp [get_backend_events, he]
  · intro he _
    cases cur with
    | none => simp at *
    | some c => simp [get_backend_events, he]
  · intro he hc
    subst hc
    simp [get_backend_events, he]
  · intro p2 r2 h2
    have hall : ∀ X : Option Event, get_backend_events X p2 r2 = none := by
      intro X
      cases X <;> simp [get_backend_events, h2]
    exact hall _

/-- Witness for C2: a `Right`-arrow latch is replaced by a newly polled
event, and is cleared when the next poll reports nothing. -/
theorem c2_event_latch_refresh_witness :
    (pollInput (some true) (some Event.other) = some Event.other ∧
      get_backend_events (some Event.focusLost) (some true) (some Event.other) =
        some Event.other) ∧
    (pollInput (some false) none = none ∧
      (some Event.focusLost : Option Event).isSome = true ∧
      get_backend_events (some Event.focusLost) (some false) none = none) :=
  ⟨⟨by decide,
    (c2_event_latch_refresh (some Event.focusLost) (some true) (some Event.other)).1
      Event.other (by decide)⟩,
   ⟨by decide, by decide,
    (c2_event_latch_refresh (some Event.focusLost) (some false) none).2.1
      (by decide) (by decide)⟩⟩

/-- C3: after `render`, the drawable queue is empty whether presenting the
frame succeeded (`draw` returned `Ok`) or failed (`draw` returned an I/O
error, discarded by `let _ = ...`). -/
theorem c3_queue_drained_on_error (wd : WidgetDrawer) (ok : Bool) (f : Buffer → Buffer) :
    (render wd ok).widgets.widgets = [] ∧
    (wd.terminal.draw false f).2 = Except.error "io error" ∧
    (wd.terminal.draw true f).2 = Except.ok () :=
  ⟨rfl, rfl, rfl⟩

/-- C6: painting a tick with zero pushed units leaves every cell of the
frame buffer, and its dimensions, exactly as the previous paint left them:
the paint step performs no clear-to-blank of its own. -/
theorem c6_empty_tick_keeps_buffer (b : Buffer) (ok : Bool) (x y : Nat) :
    (render ⟨⟨[]⟩, ⟨b⟩⟩ ok).terminal.buffer.cell x y = b.cell x y ∧
    (render ⟨⟨[]⟩, ⟨b⟩⟩ ok).terminal.buffer.width = b.width ∧
    (render ⟨⟨[]⟩, ⟨b⟩⟩ ok).terminal.buffer.height = b.height :=
  ⟨rfl, rfl, rfl⟩

/-- C7: a failed `poll` (left equation) or a failed `read` (right equation)
makes the latch refresh behave exactly like a tick on which no event
arrived; `get_backend_events` is total, so no error reaches components. -/
theorem c7_input_error_is_no_event (cur : Option Event) (r r2 : Option Event) :
    get_backend_events cur none r = get_backend_events cur (some false) r2 ∧
    get_backend_events cur (some true) none = get_backend_events cur (some false) r2 := by
  cases cur <;> simp [get_backend_events, pollInput]

/-- C8: building the plugin configured with `test_backend w h` inserts a
test-backend terminal whose current frame is exactly `w × h` with every
cell blank, for every `w` and `h` (and independently of the interactive
device dimensions `dev`, which the test path never consults). -/
theorem c8_test_backend_dimensions (w h : Nat) (dev : Nat × Nat) :
    ∃ t : Terminal,
      ((TuiPlugin.test_backend w h).build dev emptyApp).toOption.bind
          (fun app => app.terminalOf BackendTy.testBackend) = some t ∧
      t.buffer.width = w ∧ t.buffer.height = h ∧
      ∀ x y : Nat, t.buffer.cell x y = blankCell :=
  ⟨Terminal.new (TestBackend.new w h), rfl, rfl, rfl, fun _ _ => rfl⟩

/-- C9: building the plugin with the test backend selected but no size hits
`self.size.expect("test backend requires size")`: startup aborts with that
fatal error and no app state is produced, whatever the app looked like. -/
theorem c9_test_backend_requires_size (dev : Nat × Nat) (app : AppModel) :
    ({ backend := BackendKind.test, size := none } : TuiPlugin).build dev app =
      Except.error "test backend requires size" :=
  rfl

/-- C10: the app built with the test backend still registers
`cleanup_on_exit::<CrosstermBackend<Stdout>>` in `Last`; that system's
`NonSend` parameter names `TerminalWrapper<CrosstermBackend<Stdout>>`, yet
no inserted non-send resource has that kind (only the test-backend
`TerminalWrapper` is inserted), so the requirement is unsatisfiable in
headless mode. -/
theorem c10_cleanup_requires_missing_resource (w h : Nat) (dev : Nat × Nat) :
    ∃ app : AppModel,
      (TuiPlugin.test_backend w h).build dev emptyApp = Except.ok app ∧
      (ScheduleLabel.last, SystemId.cleanupOnExit BackendTy.crosstermStdout) ∈ app.systems ∧
      SystemId.requiredNonSend (SystemId.cleanupOnExit BackendTy.crosstermStdout) =
        [NonSendKind.terminalWrapperK BackendTy.crosstermStdout] ∧
      app.nonSendResources.all
        (fun r => decide (r.kind ≠ NonSendKind.terminalWrapperK BackendTy.crosstermStdout)) =
        true ∧
      app.nonSendResources.any
        (fun r => decide (r.kind = NonSendKind.terminalWrapperK BackendTy.testBackend)) =
        true := by
  refine ⟨_, rfl, ?_, rfl, ?_, ?_⟩
  · simp [TuiPlugin.build, TuiPlugin.test_backend, emptyApp]
  · simp [TuiPlugin.build, TuiPlugin.test_backend, emptyApp, NonSendRes.kind]
  · simp [TuiPlugin.build, TuiPlugin.test_backend, emptyApp, NonSendRes.kind]

theorem runTick_ticksRun (i : TickInput) (w : WorldState) :
    (runTick i w).ticksRun = w.ticksRun + 1 :=
  rfl

theorem runTick_paints (i : TickInput) (w : WorldState) :
    (runTick i w).paints = w.paints + 1 :=
  rfl

theorem runTick_paintsAfterRestore (i : TickInput) (w : WorldState) :
    (runTick i w).paintsAfterRestore =
      (if w.session.raw then w.paintsAfterRestore else w.paintsAfterRestore + 1) :=
  rfl

theorem runTick_session (i : TickInput) (w : WorldState) :
    (runTick i w).session = cleanup_on_exit i.exitSent w.session :=
  rfl

theorem runTick_latch (i : TickInput) (w : WorldState) :
    (runTick i w).latch = get_backend_events w.latch i.pollRes i.readRes :=
  rfl

theorem runTick_updateReads (i : TickInput) (w : WorldState) :
    (runTick i w).updateReads = w.updateReads ++ [w.latch] :=
  rfl

theorem runLoop_succ (inp : Nat → TickInput) (fuel t : Nat) (w : WorldState) :
    runLoop inp (fuel + 1) t w =
      (if (inp t).exitSent then runTick (inp t) w
       else runLoop inp fuel (t + 1) (runTick (inp t) w)) :=
  rfl

/-- Invariant run of the schedule-runner loop up to the first tick that
sends the exit signal: every earlier tick paints once with the device still
raw, and the exit tick paints, then restores, then the loop stops. -/
theorem runLoop_exit_props (inp : Nat → TickInput) (N : Nat)
    (hN : (inp N).exitSent = true) :
    ∀ (fuel : Nat) (t : Nat) (w : WorldState),
      (∀ k, t ≤ k → k < N → (inp k).exitSent = false) →
      t ≤ N → N < t + fuel →
      w.session.raw = true → w.paintsAfterRestore = 0 →
      w.ticksRun = t → w.paints = t →
      (runLoop inp fuel t w).ticksRun = N + 1 ∧
      (runLoop inp fuel t w).paints = N + 1 ∧
      (runLoop inp fuel t w).paintsAfterRestore = 0 ∧
      (runLoop inp fuel t w).session.raw = false := by
  intro fuel
  induction fuel with
  | zero =>
    intro t w _ hle hlt _ _ _ _
    omega
  | succ f ih =>
    intro t w hprev hle hlt hraw hpar hticks hpaints
    rcases Nat.eq_or_lt_of_le hle with heq | hlt2
    · subst heq
      rw [runLoop_succ, if_pos hN]
      refine ⟨?_, ?_, ?_, ?_⟩
      · rw [runTick_ticksRun, hticks]
      · rw [runTick_paints, hpaints]
      · rw [runTick_paintsAfterRestore, hraw]
        simp [hpar]
      · rw [runTick_session, cleanup_on_exit, if_pos hN, ratatui_restore]
    · have hexit : (inp t).exitSent = false := hprev t (le_refl t) hlt2
      rw [runLoop_succ, if_neg (by rw [hexit]; exact Bool.false_ne_true)]
      refine ih (t + 1) (runTick (inp t) w) ?_ ?_ ?_ ?_ ?_ ?_ ?_
      · intro k hk1 hk2
        exact hprev k (by omega) hk2
      · omega
      · omega
      · rw [runTick_session, cleanup_on_exit, if_neg (by rw [hexit]; exact Bool.false_ne_true), hraw]
      · rw [runTick_paintsAfterRestore, hraw]
        simpa using hpar
      · rw [runTick_ticksRun, hticks]
      · rw [runTick_paints, hpaints]

/-- C4: when the exit signal is first sent during tick `N` (0-indexed), the
loop executes exactly ticks `0..N` — so `close` runs before tick `N+1`
would start — the device has been restored when the loop hands control
back, every tick painted exactly once and no paint happened after the
restore; and a panic unwinding through the scheduler also restores the
device via the hook `ratatui::init` installed. -/
theorem c4_restore_on_exit (inp : Nat → TickInput) (t0 : Terminal) (fuel N : Nat)
    (hN : (inp N).exitSent = true)
    (hprev : ∀ k, k < N → (inp k).exitSent = false)
    (hfuel : N < fuel) :
    (runLoop inp fuel 0 (initialWorld t0)).ticksRun = N + 1 ∧
    (runLoop inp fuel 0 (initialWorld t0)).paints = N + 1 ∧
    (runLoop inp fuel 0 (initialWorld t0)).paintsAfterRestore = 0 ∧
    (runLoop inp fuel 0 (initialWorld t0)).session.raw = false ∧
    (panic_unwind ratatui_init_session).raw = false := by
  have h := runLoop_exit_props inp N hN fuel 0 (initialWorld t0)
    (fun k _ hk => hprev k hk) (Nat.zero_le N) (by omega) rfl rfl rfl rfl
  exact ⟨h.1, h.2.1, h.2.2.1, h.2.2.2, rfl⟩

/-- A tick on which nothing happens: no input, no exit, present succeeds. -/
def quietTick : TickInput :=
  { pushed := [], exitSent := false, pollRes := some false, readRes := none, presentOk := true }

/-- A tick whose update systems send the exit signal. -/
def exitTick : TickInput :=
  { pushed := [], exitSent := true, pollRes := some false, readRes := none, presentOk := true }

/-- Witness for C4: exit signal on tick 1 of a three-tick budget — two
ticks run, two paints, none after the restore, device restored. -/
theorem c4_restore_on_exit_witness :
    ((fun n => if n = 1 then exitTick else quietTick) 1).exitSent = true ∧
    (∀ k, k < 1 → ((fun n => if n = 1 then exitTick else quietTick) k).exitSent = false) ∧
    1 < 3 ∧
    ((runLoop (fun n => if n = 1 then exitTick else quietTick) 3 0
        (initialWorld (Terminal.new (TestBackend.new 4 2)))).ticksRun = 1 + 1 ∧
     (runLoop (fun n => if n = 1 then exitTick else quietTick) 3 0
        (initialWorld (Terminal.new (TestBackend.new 4 2)))).paints = 1 + 1 ∧
     (runLoop (fun n => if n = 1 then exitTick else quietTick) 3 0
        (initialWorld (Terminal.new (TestBackend.new 4 2)))).paintsAfterRestore = 0 ∧
     (runLoop (fun n => if n = 1 then exitTick else quietTick) 3 0
        (initialWorld (Terminal.new (TestBackend.new 4 2)))).session.raw = false ∧
     (panic_unwind ratatui_init_session).raw = false) :=
  ⟨by decide, by decide, by decide,
   c4_restore_on_exit (fun n => if n = 1 then exitTick else quietTick)
     (Terminal.new (TestBackend.new 4 2)) 3 1 (by decide) (by decide) (by decide)⟩

theorem worldAfter_latch (inp : Nat → TickInput) (t0 : Terminal) :
    ∀ n : Nat, (worldAfter inp (initialWorld t0) n).latch = latchChain inp n := by
  intro n
  induction n with
  | zero => rfl
  | succ n ih =>
    show (runTick (inp n) (worldAfter inp (initialWorld t0) n)).latch = _
    rw [runTick_latch, ih, latchChain]

theorem worldAfter_updateReads (inp : Nat → TickInput) (t0 : Terminal) :
    ∀ n : Nat,
      (worldAfter inp (initialWorld t0) n).updateReads =
        (List.range n).map (latchChain inp) := by
  intro n
  induction n with
  | zero => rfl
  | succ n ih =>
    show (runTick (inp n) (worldAfter inp (initialWorld t0) n)).updateReads = _
    rw [runTick_updateReads, ih, worldAfter_latch, List.range_succ, List.map_append,
      List.map_singleton]

/-- The C5 sentence as stated, formalised over the tick trace: on every
tick, the update systems would read the latch value refreshed from that
same tick's input (`latchChain inp (t + 1)` is the latch after tick `t`'s
refresh). -/
def refreshFirstHolds (inp : Nat → TickInput) (t0 : Terminal) : Prop :=
  ∀ n t : Nat, t < n →
    (worldAfter inp (initialWorld t0) n).updateReads.get? t =
      some (latchChain inp (t + 1))

/-- A tick on which the poll finds a new event. -/
def busyTick : TickInput :=
  { pushed := [], exitSent := false, pollRes := some true,
    readRes := some Event.other, presentOk := true }

/-- Counterexample to C5 as stated: with an event arriving on tick 0, tick
0's update systems read the initial empty latch, not the value the refresh
produces from tick 0's input — the refresh runs in `Last`, after the same
tick's update systems. -/
theorem c5_counterexample_refresh_not_first :
    ¬ refreshFirstHolds (fun _ => busyTick) (Terminal.new (TestBackend.new 4 2)) := by
  intro hclaim
  have h := hclaim 1 0 (by decide)
  exact absurd h (by decide)

/-- C5 (amended): each tick runs the fixed phase order Update, then
PostUpdate (compositor drain-and-paint plus present), then Last (event
latch refresh and exit handling — both registered there); consequently a
tick's update systems read the latch refreshed at the end of the previous
tick, tick 0 reading the initial empty latch. -/
theorem c5_amended_phase_order (inp : Nat → TickInput) (t0 : Terminal)
    (n t : Nat) (dev : Nat × Nat) (ht : t < n) :
    (worldAfter inp (initialWorld t0) n).updateReads.get? t =
      some (latchChain inp t) ∧
    (∃ app : AppModel, TuiPlugin.new.build dev emptyApp = Except.ok app ∧
      (ScheduleLabel.last, SystemId.getBackendEvents) ∈ app.systems ∧
      (ScheduleLabel.postUpdate, SystemId.renderSystem BackendTy.crosstermStdout) ∈
        app.systems ∧
      (ScheduleLabel.last, SystemId.cleanupOnExit BackendTy.crosstermStdout) ∈
        app.systems) ∧
    phaseIndex ScheduleLabel.update < phaseIndex ScheduleLabel.postUpdate ∧
    phaseIndex ScheduleLabel.postUpdate < phaseIndex ScheduleLabel.last := by
  refine ⟨?_, ⟨_, rfl, ?_, ?_, ?_⟩, by decide, by decide⟩
  · rw [worldAfter_updateReads, List.get?_map, List.get?_range ht]
    rfl
  · simp [TuiPlugin.build, TuiPlugin.new, emptyApp]
  · simp [TuiPlugin.build, TuiPlugin.new, emptyApp]
  · simp [TuiPlugin.build, TuiPlugin.new, emptyApp]

/-- Witness for the amended C5: with an event arriving on every tick, tick
0's update systems read the empty initial latch. -/
theorem c5_amended_phase_order_witness :
    (0 < 1) ∧
    ((worldAfter (fun _ => busyTick) (initialWorld (Terminal.new (TestBackend.new 4 2)))
        1).updateReads.get? 0 = some (latchChain (fun _ => busyTick) 0) ∧
     (∃ app : AppModel, TuiPlugin.new.build (80, 24) emptyApp = Except.ok app ∧
       (ScheduleLabel.last, SystemId.getBackendEvents) ∈ app.systems ∧
       (ScheduleLabel.postUpdate, SystemId.renderSystem BackendTy.crosstermStdout) ∈
         app.systems ∧
       (ScheduleLabel.last, SystemId.cleanupOnExit BackendTy.crosstermStdout) ∈
         app.systems) ∧
     phaseIndex ScheduleLabel.update < phaseIndex ScheduleLabel.postUpdate ∧
     phaseIndex ScheduleLabel.postUpdate < phaseIndex ScheduleLabel.last) :=
  ⟨by decide,
   c5_amended_phase_order (fun _ => busyTick) (Terminal.new (TestBackend.new 4 2))
     1 0 (80, 24) (by decide)⟩

end RatatEcs
